import Mathlib

/-!
Verification of the patent similarity finder (`src/patent_app.py`).

The program is sequential glue over three external services: the search
provider (`GoogleSearch`), the web fetcher plus HTML field extraction
(`requests` + `BeautifulSoup`), and the fuzzy-match library
(`fuzz.partial_ratio`).  Those externals are modelled as function
parameters; every piece of logic owned by the repository itself is
embedded below, line by line:

* `get_patent_results`        (patent_app.py lines 50-61)
* `scrape_patent_details`     (lines 63-84)
* `compare_features`          (lines 86-98)
* `search_best_matching_patents` (lines 100-129)
* the submit-button validation  (lines 160-182)
* the JSON export               (lines 221-225)

Python dictionaries are modelled as insertion-ordered association lists
(`dictInsert` replaces in place or appends, exactly the dict-assignment
semantics); Python string truthiness is `≠ ""`; exceptions raised by an
external call are modelled with `Except`.
-/

/-- The value stored for a matched feature: `{"score": ..., "justification": [...]}`. -/
structure MatchData where
  score : Nat
  justification : List String
deriving DecidableEq

/-- One provider result record; `title` and `link` may be absent
(`patent.get` defaults are applied at use sites, as in the source). -/
structure SearchResult where
  title : Option String
  link : Option String
deriving DecidableEq

/-- Python dict assignment `d[k] = v`: replace in place if the key exists,
otherwise append (insertion order preserved). -/
def dictInsert : List (String × MatchData) → String → MatchData → List (String × MatchData)
  | [], k, v => [(k, v)]
  | (k₀, v₀) :: rest, k, v =>
      if k₀ = k then (k, v) :: rest else (k₀, v₀) :: dictInsert rest k v

/-- Python dict lookup `d[k]` (as an `Option`). -/
def dictLookup : List (String × MatchData) → String → Option MatchData
  | [], _ => none
  | (k₀, v₀) :: rest, k => if k₀ = k then some v₀ else dictLookup rest k

/-- Python `str.lower()` (ASCII case mapping), embedded so that it
computes by kernel reduction. -/
def py_lower (s : String) : String :=
  String.mk (s.data.map Char.toLower)

/-- Python's whitespace set for `str.strip()`. -/
def py_space (c : Char) : Bool :=
  c = ' ' || c = '\t' || c = '\n' || c = '\r' || c = '\x0b' || c = '\x0c'

/-- Python `str.strip()`: drop whitespace from both ends. -/
def py_strip (s : String) : String :=
  String.mk (((s.data.dropWhile py_space).reverse.dropWhile py_space).reverse)

/-- Does `sep` occur at the head of `cs`? -/
def beginsWith : List Char → List Char → Bool
  | [], _ => true
  | _ :: _, [] => false
  | p :: ps, c :: cs => p = c && beginsWith ps cs

/-- Python `str.split(sep)` for non-empty `sep`, on character lists: cut at
each leftmost non-overlapping occurrence of `sep`.  The fuel argument (the
input's length suffices) keeps the recursion structural so that concrete
inputs compute by kernel reduction. -/
def py_split_aux (sep : List Char) : Nat → List Char → List Char → List (List Char)
  | _, [], acc => [acc.reverse]
  | 0, cs, acc => [acc.reverse ++ cs]
  | Nat.succ fuel, c :: cs, acc =>
      if beginsWith sep (c :: cs) then
        acc.reverse :: py_split_aux sep fuel (List.drop sep.length (c :: cs)) []
      else
        py_split_aux sep fuel cs (c :: acc)

/-- Python `str.split(sep)`: `py_split s sep` is `s.split(sep)`.
(`sep` is never empty in this program; Python would raise on it.) -/
def py_split (s sep : String) : List String :=
  if sep.data = [] then [s]
  else (py_split_aux sep.data s.data.length s.data []).map String.mk

/-- The fixed justification used when no sentence qualifies
(patent_app.py line 97). -/
def noSentenceMsg : String :=
  "No exact sentence found, but feature is present in the patent text."

/-- The body of the `for feature in features` loop of `compare_features`
(patent_app.py lines 88-97).  `fuzz` is the external fuzzy-match scorer
(`fuzz.partial_ratio`). -/
def compare_step (fuzz : String → String → Nat) (patent_text : String)
    (similarity_threshold : Nat) (matchDict : List (String × MatchData))
    (feature : String) : List (String × MatchData) :=
  let score := fuzz (py_lower feature) (py_lower patent_text)
  if similarity_threshold < score then
    let sentences := py_split patent_text ". "
    let relevant_sentences :=
      sentences.filter (fun s => 50 < fuzz (py_lower feature) (py_lower s))
    if relevant_sentences ≠ [] then
      dictInsert matchDict feature
        { score := score, justification := relevant_sentences.take 3 }
    else
      dictInsert matchDict feature
        { score := score, justification := [noSentenceMsg] }
  else
    matchDict

/-- `compare_features(features, patent_text, similarity_threshold)`
(patent_app.py lines 86-98): builds the `matches` dict. -/
def compare_features (fuzz : String → String → Nat) (features : List String)
    (patent_text : String) (similarity_threshold : Nat) :
    List (String × MatchData) :=
  features.foldl (compare_step fuzz patent_text similarity_threshold) []

/-- The entry `compare_features` stores for one retained feature (lines 91-97):
value of `matches[feature]` as a function of the feature and the text alone. -/
def compare_entry (fuzz : String → String → Nat) (feature patent_text : String) :
    MatchData :=
  let score := fuzz (py_lower feature) (py_lower patent_text)
  let sentences := py_split patent_text ". "
  let relevant_sentences :=
    sentences.filter (fun s => 50 < fuzz (py_lower feature) (py_lower s))
  if relevant_sentences ≠ [] then
    { score := score, justification := relevant_sentences.take 3 }
  else
    { score := score, justification := [noSentenceMsg] }

/-- `get_patent_results(query, api_key)` (patent_app.py lines 50-61).
`googleSearch` is the external provider: it receives the augmented query and
the key, and returns either the (optional) `organic_results` list or an
exception message.  The second component of the result is the `st.error`
warning shown to the user, `none` when no error was reported. -/
def get_patent_results
    (googleSearch : String → String → Except String (Option (List SearchResult)))
    (query api_key : String) : List SearchResult × Option String :=
  match googleSearch (query ++ " site:patents.google.com") api_key with
  | Except.ok organic_results => (organic_results.getD [], none)
  | Except.error e => ([], some ("Error in API search: " ++ e))

/-- `scrape_patent_details(url)` (patent_app.py lines 63-84).  `fetchPage`
is the external fetch-and-extract step (requests + BeautifulSoup): it yields
the optional abstract `content` attribute, the optional description tag text
and the optional claims section text, or an exception message. -/
def scrape_patent_details
    (fetchPage : String → Except String (Option String × Option String × Option String))
    (url : String) : String :=
  match fetchPage url with
  | Except.ok (abstract_tag, description_tag, claims_section) =>
      let abstract := match abstract_tag with
        | some a => a
        | none => ""
      let description := match description_tag with
        | some d => py_strip d
        | none => ""
      let claims := match claims_section with
        | some c => py_strip c
        | none => ""
      let full_text := abstract ++ "\n\n" ++ description ++ "\n\n" ++ claims
      if py_strip full_text ≠ "" then full_text
      else "No detailed description available."
  | Except.error e => "Error scraping patent details: " ++ e

/-- One matched patent: `(title, link, matches)` as appended to
`best_patents` (patent_app.py line 124). -/
abbrev PatentRecord := String × String × List (String × MatchData)

/-- The body of the `for i, patent in enumerate(patents[:max_patents])` loop
(patent_app.py lines 109-124), instrumented with a ghost trace: the second
component of the accumulator records every link passed to
`scrape_patent_details`, and is otherwise inert. -/
def search_step (fuzz : String → String → Nat)
    (fetchPage : String → Except String (Option String × Option String × Option String))
    (features : List String) (similarity_threshold min_feature_matches : Nat)
    (acc : List PatentRecord × List String) (patent : SearchResult) :
    List PatentRecord × List String :=
  let title := patent.title.getD "Untitled Patent"
  let link := patent.link.getD ""
  if link = "" then acc
  else
    let patent_text := scrape_patent_details fetchPage link
    let matchDict := compare_features fuzz features patent_text similarity_threshold
    if min_feature_matches ≤ matchDict.length then
      (acc.1 ++ [(title, link, matchDict)], acc.2 ++ [link])
    else
      (acc.1, acc.2 ++ [link])

/-- `search_best_matching_patents(...)` (patent_app.py lines 100-129)
together with its ghost trace of scraped links. -/
def search_best_matching_patents_run (fuzz : String → String → Nat)
    (googleSearch : String → String → Except String (Option (List SearchResult)))
    (fetchPage : String → Except String (Option String × Option String × Option String))
    (new_invention : String) (features : List String) (api_key : String)
    (similarity_threshold min_feature_matches max_patents : Nat) :
    List PatentRecord × List String :=
  let query := new_invention
  let patents := (get_patent_results googleSearch query api_key).1
  (patents.take max_patents).foldl
    (search_step fuzz fetchPage features similarity_threshold min_feature_matches)
    ([], [])

/-- `search_best_matching_patents(...)`: the returned `best_patents` list. -/
def search_best_matching_patents (fuzz : String → String → Nat)
    (googleSearch : String → String → Except String (Option (List SearchResult)))
    (fetchPage : String → Except String (Option String × Option String × Option String))
    (new_invention : String) (features : List String) (api_key : String)
    (similarity_threshold min_feature_matches max_patents : Nat) :
    List PatentRecord :=
  (search_best_matching_patents_run fuzz googleSearch fetchPage new_invention
    features api_key similarity_threshold min_feature_matches max_patents).1

/-- What the candidate loop does with one candidate of the truncated list:
`none` when it is skipped (no link) or filtered out (too few matches),
`some record` when it is appended to `best_patents`. -/
def analyzeCandidate (fuzz : String → String → Nat)
    (fetchPage : String → Except String (Option String × Option String × Option String))
    (features : List String) (similarity_threshold min_feature_matches : Nat)
    (patent : SearchResult) : Option PatentRecord :=
  let title := patent.title.getD "Untitled Patent"
  let link := patent.link.getD ""
  if link = "" then none
  else
    let patent_text := scrape_patent_details fetchPage link
    let matchDict := compare_features fuzz features patent_text similarity_threshold
    if min_feature_matches ≤ matchDict.length then some (title, link, matchDict)
    else none

/-- Parsing of the features text area (patent_app.py line 169):
strip the whole text, split on newlines, strip each line, drop blanks. -/
def parse_features (features_text : String) : List String :=
  ((py_split (py_strip features_text) "\n").map py_strip).filter (fun s => s ≠ "")

/-- Outcome of pressing the submit button. -/
inductive SubmitOutcome where
  | rejected (msg : String)
  | results (best_patents : List PatentRecord)
deriving DecidableEq

/-- The `if submit_button:` block (patent_app.py lines 160-182): input
validation, feature parsing, and the call into
`search_best_matching_patents`. -/
def handle_submit (fuzz : String → String → Nat)
    (googleSearch : String → String → Except String (Option (List SearchResult)))
    (fetchPage : String → Except String (Option String × Option String × Option String))
    (api_key new_invention features_text : String)
    (similarity_threshold min_feature_matches max_patents : Nat) : SubmitOutcome :=
  if api_key = "" then
    SubmitOutcome.rejected "Please enter your SerpAPI key in the sidebar."
  else if new_invention = "" then
    SubmitOutcome.rejected "Please describe your invention."
  else if features_text = "" then
    SubmitOutcome.rejected "Please enter at least one feature."
  else
    let features := parse_features features_text
    if features = [] then
      SubmitOutcome.rejected "Please enter valid features (one per line)."
    else
      SubmitOutcome.results
        (search_best_matching_patents fuzz googleSearch fetchPage new_invention
          features api_key similarity_threshold min_feature_matches max_patents)

/-- A JSON value, enough for the export format of patent_app.py lines 221-225. -/
inductive JsonVal where
  | str (s : String)
  | num (n : Nat)
  | arr (elems : List JsonVal)
  | obj (fields : List (String × JsonVal))

/-- The JSON object serialized for one feature's match data:
`{"score": ..., "justification": [...]}`. -/
def matchDataJson (d : MatchData) : JsonVal :=
  JsonVal.obj [("score", JsonVal.num d.score),
               ("justification", JsonVal.arr (d.justification.map JsonVal.str))]

/-- The JSON object serialized for a `matches` dict. -/
def matchesJson (matchDict : List (String × MatchData)) : JsonVal :=
  JsonVal.obj (matchDict.map (fun p => (p.1, matchDataJson p.2)))

/-- `result_json` (patent_app.py lines 221-225): the JSON array offered for
download, one object per matched patent. -/
def result_json (best_patents : List PatentRecord) : JsonVal :=
  JsonVal.arr (best_patents.map (fun r =>
    JsonVal.obj [("patent_title", JsonVal.str r.1),
                 ("patent_link", JsonVal.str r.2.1),
                 ("matches", matchesJson r.2.2)]))

/-- Parse a JSON array of strings back. -/
def decodeStrList : List JsonVal → Option (List String)
  | [] => some []
  | JsonVal.str s :: rest => (decodeStrList rest).map (fun l => s :: l)
  | _ => none

/-- Parse one feature's match data back. -/
def decodeMatchData : JsonVal → Option MatchData
  | JsonVal.obj [("score", JsonVal.num n), ("justification", JsonVal.arr js)] =>
      (decodeStrList js).map (fun sentences => { score := n, justification := sentences })
  | _ => none

/-- Parse a `matches` object back. -/
def decodeMatches : List (String × JsonVal) → Option (List (String × MatchData))
  | [] => some []
  | (k, v) :: rest =>
      match decodeMatchData v, decodeMatches rest with
      | some d, some tail => some ((k, d) :: tail)
      | _, _ => none

/-- Parse one exported patent object back. -/
def decodeRecord : JsonVal → Option PatentRecord
  | JsonVal.obj [("patent_title", JsonVal.str t), ("patent_link", JsonVal.str l),
                 ("matches", JsonVal.obj fields)] =>
      (decodeMatches fields).map (fun m => (t, l, m))
  | _ => none

/-- Parse a list of exported patent objects back. -/
def decodeRecords : List JsonVal → Option (List PatentRecord)
  | [] => some []
  | v :: rest =>
      match decodeRecord v, decodeRecords rest with
      | some r, some tail => some (r :: tail)
      | _, _ => none

/-- Parse the whole export back into a result set. -/
def parse_result_json : JsonVal → Option (List PatentRecord)
  | JsonVal.arr elems => decodeRecords elems
  | _ => none

/-! ### Dictionary lemmas -/

theorem dictLookup_dictInsert_self (d : List (String × MatchData)) (k : String)
    (v : MatchData) : dictLookup (dictInsert d k v) k = some v := by
  induction d with
  | nil => simp [dictInsert, dictLookup]
  | cons p rest ih =>
    obtain ⟨k₀, v₀⟩ := p
    by_cases h : k₀ = k
    · simp [dictInsert, dictLookup, h]
    · simp [dictInsert, dictLookup, h, ih]

theorem dictLookup_dictInsert_ne (d : List (String × MatchData)) (k k' : String)
    (v : MatchData) (h : k' ≠ k) :
    dictLookup (dictInsert d k v) k' = dictLookup d k' := by
  induction d with
  | nil => simp [dictInsert, dictLookup, Ne.symm h]
  | cons p rest ih =>
    obtain ⟨k₀, v₀⟩ := p
    by_cases hk : k₀ = k
    · subst hk
      have hne : k₀ ≠ k' := fun hh => h (hh ▸ rfl)
      simp [dictInsert, dictLookup, hne]
    · by_cases hk' : k₀ = k'
      · subst hk'
        simp [dictInsert, dictLookup, hk]
      · simp [dictInsert, dictLookup, hk, hk', ih]

theorem dictInsert_of_dictLookup_eq (d : List (String × MatchData)) (k : String)
    (v : MatchData) (h : dictLookup d k = some v) : dictInsert d k v = d := by
  induction d with
  | nil => simp [dictLookup] at h
  | cons p rest ih =>
    obtain ⟨k₀, v₀⟩ := p
    by_cases hk : k₀ = k
    · subst hk
      simp only [dictLookup, if_true, eq_self_iff_true, Option.some.injEq] at h
      simp [dictInsert, h]
    · simp only [dictLookup, if_neg hk] at h
      simp [dictInsert, hk, ih h]

theorem keys_dictInsert (d : List (String × MatchData)) (k : String) (v : MatchData) :
    (dictInsert d k v).map Prod.fst =
      if k ∈ d.map Prod.fst then d.map Prod.fst else d.map Prod.fst ++ [k] := by
  induction d with
  | nil => simp [dictInsert]
  | cons p rest ih =>
    obtain ⟨k₀, v₀⟩ := p
    by_cases hk : k₀ = k
    · simp [dictInsert, hk]
    · by_cases hmem : k ∈ rest.map Prod.fst
      · simp [dictInsert, hk, hmem, ih, Ne.symm hk]
      · simp [dictInsert, hk, hmem, ih, Ne.symm hk]

theorem keys_nodup_dictInsert (d : List (String × MatchData)) (k : String)
    (v : MatchData) (h : (d.map Prod.fst).Nodup) :
    ((dictInsert d k v).map Prod.fst).Nodup := by
  rw [keys_dictInsert]
  by_cases hmem : k ∈ d.map Prod.fst
  · simpa [hmem] using h
  · simp only [if_neg hmem]
    exact List.Nodup.append h (List.nodup_singleton k)
      (by simpa [List.disjoint_singleton] using hmem)

theorem dictLookup_isSome_iff (d : List (String × MatchData)) (k : String) :
    (dictLookup d k).isSome ↔ k ∈ d.map Prod.fst := by
  induction d with
  | nil => simp [dictLookup]
  | cons p rest ih =>
    obtain ⟨k₀, v₀⟩ := p
    by_cases h : k₀ = k
    · simp [dictLookup, h]
    · simp [dictLookup, h, ih, Ne.symm h]

/-! ### Characterization of `compare_features` -/

theorem compare_step_eq (fuzz : String → String → Nat) (patent_text : String)
    (similarity_threshold : Nat) (matchDict : List (String × MatchData))
    (feature : String) :
    compare_step fuzz patent_text similarity_threshold matchDict feature =
      if similarity_threshold < fuzz (py_lower feature) (py_lower patent_text) then
        dictInsert matchDict feature (compare_entry fuzz feature patent_text)
      else matchDict := by
  unfold compare_step compare_entry
  dsimp only
  split
  · split <;> rfl
  · rfl

theorem dictLookup_compare_foldl (fuzz : String → String → Nat)
    (patent_text : String) (similarity_threshold : Nat) (features : List String)
    (matchDict : List (String × MatchData)) (f : String) :
    dictLookup
        (features.foldl (compare_step fuzz patent_text similarity_threshold) matchDict) f =
      if f ∈ features ∧ similarity_threshold < fuzz (py_lower f) (py_lower patent_text)
      then some (compare_entry fuzz f patent_text)
      else dictLookup matchDict f := by
  induction features generalizing matchDict with
  | nil => simp
  | cons x xs ih =>
    rw [List.foldl_cons, ih, compare_step_eq]
    by_cases hx : f = x
    · subst hx
      by_cases hc : similarity_threshold < fuzz (py_lower f) (py_lower patent_text)
      · by_cases hmem : f ∈ xs <;>
          simp [hc, hmem, dictLookup_dictInsert_self]
      · simp [hc]
    · by_cases hc : similarity_threshold < fuzz (py_lower x) (py_lower patent_text)
      · simp only [if_pos hc, dictLookup_dictInsert_ne _ _ _ _ hx]
        simp [hx]
      · simp [hc, hx]

theorem dictLookup_compare_features (fuzz : String → String → Nat)
    (features : List String) (patent_text : String) (similarity_threshold : Nat)
    (f : String) :
    dictLookup (compare_features fuzz features patent_text similarity_threshold) f =
      if f ∈ features ∧ similarity_threshold < fuzz (py_lower f) (py_lower patent_text)
      then some (compare_entry fuzz f patent_text)
      else none := by
  unfold compare_features
  rw [dictLookup_compare_foldl]
  rfl

theorem keys_nodup_compare_foldl (fuzz : String → String → Nat)
    (patent_text : String) (similarity_threshold : Nat) (features : List String)
    (matchDict : List (String × MatchData))
    (h : (matchDict.map Prod.fst).Nodup) :
    (((features.foldl (compare_step fuzz patent_text similarity_threshold) matchDict)).map
        Prod.fst).Nodup := by
  induction features generalizing matchDict with
  | nil => simpa using h
  | cons x xs ih =>
    rw [List.foldl_cons, compare_step_eq]
    split
    · exact ih _ (keys_nodup_dictInsert _ _ _ h)
    · exact ih _ h

/-! ### Characterization of the candidate loop -/

theorem search_foldl (fuzz : String → String → Nat)
    (fetchPage : String → Except String (Option String × Option String × Option String))
    (features : List String) (similarity_threshold min_feature_matches : Nat)
    (l : List SearchResult) (acc : List PatentRecord × List String) :
    l.foldl (search_step fuzz fetchPage features similarity_threshold min_feature_matches) acc =
      (acc.1 ++ l.filterMap
          (analyzeCandidate fuzz fetchPage features similarity_threshold min_feature_matches),
       acc.2 ++ (l.map (fun p => p.link.getD "")).filter (fun s => s ≠ "")) := by
  induction l generalizing acc with
  | nil => simp
  | cons x xs ih =>
    rw [List.foldl_cons, ih, List.map_cons, List.filterMap_cons, List.filter_cons]
    by_cases hl : x.link.getD "" = ""
    · simp [search_step, analyzeCandidate, hl]
    · by_cases hm : min_feature_matches ≤
          (compare_features fuzz features
            (scrape_patent_details fetchPage (x.link.getD "")) similarity_threshold).length
      · simp [search_step, analyzeCandidate, hl, hm]
      · simp [search_step, analyzeCandidate, hl, hm]

theorem search_run_eq (fuzz : String → String → Nat)
    (googleSearch : String → String → Except String (Option (List SearchResult)))
    (fetchPage : String → Except String (Option String × Option String × Option String))
    (new_invention : String) (features : List String) (api_key : String)
    (similarity_threshold min_feature_matches max_patents : Nat) :
    search_best_matching_patents_run fuzz googleSearch fetchPage new_invention features
        api_key similarity_threshold min_feature_matches max_patents =
      (((get_patent_results googleSearch new_invention api_key).1.take max_patents).filterMap
          (analyzeCandidate fuzz fetchPage features similarity_threshold min_feature_matches),
       ((((get_patent_results googleSearch new_invention api_key).1.take max_patents).map
          (fun p => p.link.getD "")).filter (fun s => s ≠ ""))) := by
  unfold search_best_matching_patents_run
  dsimp only
  rw [search_foldl]
  simp

/-! ### Further helpers -/

theorem compare_entry_score (fuzz : String → String → Nat) (feature patent_text : String) :
    (compare_entry fuzz feature patent_text).score =
      fuzz (py_lower feature) (py_lower patent_text) := by
  unfold compare_entry
  dsimp only
  split <;> rfl

theorem ne_empty_of_length_pos (s : String) (h : 0 < s.length) : s ≠ "" := by
  intro hs
  subst hs
  exact absurd h (by decide)

/-- A concrete scorer used to exercise the theorems on concrete inputs:
90 when the needle occurs verbatim in the haystack, 10 otherwise. -/
def demoFuzz (needle hay : String) : Nat :=
  if 2 ≤ (py_split hay needle).length then 90 else 10

/-! ### The claims -/

/-- C1: for every feature list, document text and threshold, a feature is a
key of the mapping returned by `compare_features` iff it belongs to the
submitted feature list and its fuzzy score against the full document text
strictly exceeds the threshold (a score equal to the threshold is
excluded); in particular no key outside the submitted list appears. -/
theorem c1_compare_features_key_iff (fuzz : String → String → Nat)
    (features : List String) (patent_text : String) (similarity_threshold : Nat)
    (feature : String) :
    feature ∈ (compare_features fuzz features patent_text similarity_threshold).map
        Prod.fst ↔
      feature ∈ features ∧
        similarity_threshold < fuzz (py_lower feature) (py_lower patent_text) := by
  rw [← dictLookup_isSome_iff, dictLookup_compare_features]
  by_cases h : feature ∈ features ∧
      similarity_threshold < fuzz (py_lower feature) (py_lower patent_text)
  · simp [h]
  · simp [if_neg h, h]

/-- C3: the justification stored for a retained feature has length at most 3
and is never empty: among the sentences obtained by splitting the document
text on `". "`, exactly those whose score against the feature strictly
exceeds the fixed threshold 50 qualify, the first at most 3 qualifying
sentences are kept in document order, and when none qualifies a single
fixed placeholder is stored. -/
theorem c3_justification_spec (fuzz : String → String → Nat)
    (features : List String) (patent_text : String) (similarity_threshold : Nat)
    (feature : String) (d : MatchData)
    (h : dictLookup (compare_features fuzz features patent_text similarity_threshold)
        feature = some d) :
    d.justification.length ≤ 3 ∧
    d.justification ≠ [] ∧
    ((py_split patent_text ". ").filter
        (fun s => 50 < fuzz (py_lower feature) (py_lower s)) = [] →
      d.justification = [noSentenceMsg]) ∧
    ((py_split patent_text ". ").filter
        (fun s => 50 < fuzz (py_lower feature) (py_lower s)) ≠ [] →
      d.justification =
        ((py_split patent_text ". ").filter
          (fun s => 50 < fuzz (py_lower feature) (py_lower s))).take 3) := by
  rw [dictLookup_compare_features] at h
  by_cases hc : feature ∈ features ∧
      similarity_threshold < fuzz (py_lower feature) (py_lower patent_text)
  · rw [if_pos hc] at h
    have hd : compare_entry fuzz feature patent_text = d := by injection h
    subst hd
    unfold compare_entry
    dsimp only
    by_cases hr : (py_split patent_text ". ").filter
        (fun s => 50 < fuzz (py_lower feature) (py_lower s)) ≠ []
    · rw [if_pos hr]
      refine ⟨List.length_take_le 3 _, ?_, fun hnil => absurd hnil hr, fun _ => rfl⟩
      intro hnil
      rcases List.take_eq_nil_iff.mp hnil with h3 | h3
      · exact absurd h3 (by decide)
      · exact hr h3
    · rw [if_neg hr]
      push_neg at hr
      exact ⟨by simp, by simp, fun _ => rfl, fun hne => absurd hr hne⟩
  · rw [if_neg hc] at h
    exact absurd h (by simp)

theorem c3_justification_witness :
    (compare_entry demoFuzz "red widget" "a red widget. more text").justification.length ≤ 3 :=
  (c3_justification_spec demoFuzz ["red widget"] "a red widget. more text" 40 "red widget"
    (compare_entry demoFuzz "red widget" "a red widget. more text") (by decide)).1

/-- C9: matching is case-insensitive but case-preserving for display:
replacing a feature and the document text by case variants (equal after
case folding) leaves the score recorded for the feature unchanged, while
the mapping keys are the feature strings exactly as submitted and every
non-placeholder justification sentence is a sentence of the original
(un-folded) document text. -/
theorem c9_case_insensitive (fuzz : String → String → Nat)
    (features fs₁ fs₂ : List String) (similarity_threshold : Nat)
    (f₁ f₂ t₁ t₂ : String)
    (hf : py_lower f₁ = py_lower f₂) (ht : py_lower t₁ = py_lower t₂)
    (h₁ : f₁ ∈ fs₁) (h₂ : f₂ ∈ fs₂) :
    ((dictLookup (compare_features fuzz fs₁ t₁ similarity_threshold) f₁).map
        MatchData.score =
      (dictLookup (compare_features fuzz fs₂ t₂ similarity_threshold) f₂).map
        MatchData.score) ∧
    (∀ k ∈ (compare_features fuzz features t₁ similarity_threshold).map Prod.fst,
      k ∈ features) ∧
    (∀ f d,
      dictLookup (compare_features fuzz features t₁ similarity_threshold) f = some d →
        d.justification = [noSentenceMsg] ∨
          ∀ s ∈ d.justification, s ∈ py_split t₁ ". ") := by
  refine ⟨?_, ?_, ?_⟩
  · rw [dictLookup_compare_features, dictLookup_compare_features]
    by_cases hc : similarity_threshold < fuzz (py_lower f₁) (py_lower t₁)
    · have hc₂ : similarity_threshold < fuzz (py_lower f₂) (py_lower t₂) := by
        rw [← hf, ← ht]; exact hc
      rw [if_pos ⟨h₁, hc⟩, if_pos ⟨h₂, hc₂⟩]
      simp [compare_entry_score, hf, ht]
    · have hc₂ : ¬ similarity_threshold < fuzz (py_lower f₂) (py_lower t₂) := by
        rw [← hf, ← ht]; exact hc
      rw [if_neg (fun hand => hc hand.2), if_neg (fun hand => hc₂ hand.2)]
  · intro k hk
    rw [← dictLookup_isSome_iff, dictLookup_compare_features] at hk
    by_cases hc : k ∈ features ∧
        similarity_threshold < fuzz (py_lower k) (py_lower t₁)
    · exact hc.1
    · rw [if_neg hc] at hk
      exact absurd hk (by simp)
  · intro f d hd
    rw [dictLookup_compare_features] at hd
    by_cases hc : f ∈ features ∧
        similarity_threshold < fuzz (py_lower f) (py_lower t₁)
    · rw [if_pos hc] at hd
      have he : compare_entry fuzz f t₁ = d := by injection hd
      subst he
      unfold compare_entry
      dsimp only
      by_cases hr : (py_split t₁ ". ").filter
          (fun s => 50 < fuzz (py_lower f) (py_lower s)) ≠ []
      · rw [if_pos hr]
        refine Or.inr (fun s hs => ?_)
        exact List.mem_of_mem_filter (List.mem_of_mem_take hs)
      · rw [if_neg hr]
        exact Or.inl rfl
    · rw [if_neg hc] at hd
      exact absurd hd (by simp)

theorem c9_case_insensitive_witness :
    (dictLookup (compare_features demoFuzz ["Red Widget"] "a Red Widget. x" 40)
        "Red Widget").map MatchData.score =
      (dictLookup (compare_features demoFuzz ["rED wIDGET"] "a rED wIDGET. x" 40)
        "rED wIDGET").map MatchData.score :=
  (c9_case_insensitive demoFuzz ["Red Widget"] ["Red Widget"] ["rED wIDGET"] 40
    "Red Widget" "rED wIDGET" "a Red Widget. x" "a rED wIDGET. x"
    (by decide) (by decide) (by decide) (by decide)).1

/-- C10: mapping-key identity is the exact feature string: appending a
duplicate of a feature already in the list leaves the mapping unchanged
(so a duplicated feature counts once toward the minimum-match filter), the
keys of the mapping are pairwise distinct strings, while two distinct case
variants of one phrase that score above the threshold each get their own
entry, with equal scores. -/
theorem c10_key_identity (fuzz : String → String → Nat)
    (features : List String) (patent_text : String) (similarity_threshold : Nat)
    (f f₁ f₂ : String)
    (hdup : f ∈ features)
    (h₁ : f₁ ∈ features) (h₂ : f₂ ∈ features) (hne : f₁ ≠ f₂)
    (hcase : py_lower f₁ = py_lower f₂)
    (hsc : similarity_threshold < fuzz (py_lower f₁) (py_lower patent_text)) :
    ((compare_features fuzz features patent_text similarity_threshold).map
        Prod.fst).Nodup ∧
    compare_features fuzz (features ++ [f]) patent_text similarity_threshold =
      compare_features fuzz features patent_text similarity_threshold ∧
    (dictLookup (compare_features fuzz features patent_text similarity_threshold)
        f₁).isSome ∧
    (dictLookup (compare_features fuzz features patent_text similarity_threshold)
        f₂).isSome ∧
    (dictLookup (compare_features fuzz features patent_text similarity_threshold)
        f₁).map MatchData.score =
      (dictLookup (compare_features fuzz features patent_text similarity_threshold)
        f₂).map MatchData.score := by
  have hsc₂ : similarity_threshold < fuzz (py_lower f₂) (py_lower patent_text) := by
    rw [← hcase]; exact hsc
  refine ⟨?_, ?_, ?_, ?_, ?_⟩
  · exact keys_nodup_compare_foldl fuzz patent_text similarity_threshold features []
      (by simp)
  · unfold compare_features
    rw [List.foldl_append, List.foldl_cons, List.foldl_nil, compare_step_eq]
    by_cases hc : similarity_threshold < fuzz (py_lower f) (py_lower patent_text)
    · rw [if_pos hc]
      exact dictInsert_of_dictLookup_eq _ _ _
        (by rw [dictLookup_compare_foldl]; rw [if_pos ⟨hdup, hc⟩])
    · rw [if_neg hc]
  · rw [dictLookup_compare_features, if_pos ⟨h₁, hsc⟩]
    rfl
  · rw [dictLookup_compare_features, if_pos ⟨h₂, hsc₂⟩]
    rfl
  · rw [dictLookup_compare_features, dictLookup_compare_features,
      if_pos ⟨h₁, hsc⟩, if_pos ⟨h₂, hsc₂⟩]
    simp [compare_entry_score, hcase]

theorem c10_key_identity_witness :
    compare_features demoFuzz (["Red widget", "red widget"] ++ ["Red widget"])
        "a red widget here" 40 =
      compare_features demoFuzz ["Red widget", "red widget"] "a red widget here" 40 :=
  (c10_key_identity demoFuzz ["Red widget", "red widget"] "a red widget here" 40
    "Red widget" "Red widget" "red widget"
    (by decide) (by decide) (by decide) (by decide) (by decide) (by decide)).2.1

/-- C2: the candidate loop fetches and scores exactly the candidates with a
non-empty link among the first `min(N, max_patents)` retrieved records: the
ghost trace of links passed to `scrape_patent_details` equals the non-empty
links of the truncated candidate list (truncation to `max_patents` happens
before no-link entries are skipped, so no-link entries consume slots of the
cap), and in particular at most `max_patents` candidates are ever fetched. -/
theorem c2_fetch_truncation (fuzz : String → String → Nat)
    (googleSearch : String → String → Except String (Option (List SearchResult)))
    (fetchPage : String → Except String (Option String × Option String × Option String))
    (new_invention : String) (features : List String) (api_key : String)
    (similarity_threshold min_feature_matches max_patents : Nat) :
    (search_best_matching_patents_run fuzz googleSearch fetchPage new_invention
        features api_key similarity_threshold min_feature_matches max_patents).2 =
      ((((get_patent_results googleSearch new_invention api_key).1.take max_patents).map
        (fun p => p.link.getD "")).filter (fun s => s ≠ "")) ∧
    (search_best_matching_patents_run fuzz googleSearch fetchPage new_invention
        features api_key similarity_threshold min_feature_matches max_patents).2.length ≤
      max_patents := by
  rw [search_run_eq]
  refine ⟨rfl, ?_⟩
  calc ((((get_patent_results googleSearch new_invention api_key).1.take max_patents).map
        (fun p => p.link.getD "")).filter (fun s => s ≠ "")).length ≤
      (((get_patent_results googleSearch new_invention api_key).1.take max_patents).map
        (fun p => p.link.getD "")).length := List.length_filter_le _ _
    _ = ((get_patent_results googleSearch new_invention api_key).1.take max_patents).length :=
      List.length_map _ _
    _ ≤ max_patents := List.length_take_le _ _

/-- C4: every record returned by `search_best_matching_patents` has a
feature-match mapping of size at least `min_feature_matches`, and the
returned records are exactly the retained candidates of the truncated
retrieval list in retrieval order (a `filterMap`, hence no re-ranking by
score). -/
theorem c4_min_matches_and_order (fuzz : String → String → Nat)
    (googleSearch : String → String → Except String (Option (List SearchResult)))
    (fetchPage : String → Except String (Option String × Option String × Option String))
    (new_invention : String) (features : List String) (api_key : String)
    (similarity_threshold min_feature_matches max_patents : Nat) :
    search_best_matching_patents fuzz googleSearch fetchPage new_invention features
        api_key similarity_threshold min_feature_matches max_patents =
      ((get_patent_results googleSearch new_invention api_key).1.take max_patents).filterMap
        (analyzeCandidate fuzz fetchPage features similarity_threshold min_feature_matches) ∧
    ∀ r ∈ search_best_matching_patents fuzz googleSearch fetchPage new_invention features
        api_key similarity_threshold min_feature_matches max_patents,
      min_feature_matches ≤ r.2.2.length := by
  have heq : search_best_matching_patents fuzz googleSearch fetchPage new_invention
      features api_key similarity_threshold min_feature_matches max_patents =
      ((get_patent_results googleSearch new_invention api_key).1.take max_patents).filterMap
        (analyzeCandidate fuzz fetchPage features similarity_threshold
          min_feature_matches) := by
    unfold search_best_matching_patents
    rw [search_run_eq]
  refine ⟨heq, ?_⟩
  intro r hr
  rw [heq, List.mem_filterMap] at hr
  obtain ⟨p, _, hp⟩ := hr
  unfold analyzeCandidate at hp
  dsimp only at hp
  by_cases hl : p.link.getD "" = ""
  · rw [if_pos hl] at hp
    exact absurd hp (by simp)
  · rw [if_neg hl] at hp
    by_cases hm : min_feature_matches ≤
        (compare_features fuzz features
          (scrape_patent_details fetchPage (p.link.getD "")) similarity_threshold).length
    · rw [if_pos hm] at hp
      have : (p.title.getD "Untitled Patent", p.link.getD "",
          compare_features fuzz features
            (scrape_patent_details fetchPage (p.link.getD "")) similarity_threshold) = r := by
        injection hp
      rw [← this]
      exact hm
    · rw [if_neg hm] at hp
      exact absurd hp (by simp)

/-- The combined text `f"{abstract}\n\n{description}\n\n{claims}"` built by
`scrape_patent_details` (patent_app.py line 81) from the extracted fields. -/
def combined_text (abstract_tag description_tag claims_section : Option String) : String :=
  (abstract_tag.getD "") ++ "\n\n" ++ ((description_tag.map py_strip).getD "") ++ "\n\n" ++
    ((claims_section.map py_strip).getD "")

/-- C5: `scrape_patent_details` always returns a string and that string is
never empty; a fetch/parse exception is converted into a string embedding
the error message; and when the combined extracted text is blank after
stripping, the fixed sentinel is returned instead of an empty string
(otherwise the combined text itself is returned). -/
theorem c5_scrape_never_empty (fetchPage : String →
      Except String (Option String × Option String × Option String))
    (url : String) :
    scrape_patent_details fetchPage url ≠ "" ∧
    (∀ e, fetchPage url = Except.error e →
      scrape_patent_details fetchPage url = "Error scraping patent details: " ++ e) ∧
    (∀ a d c, fetchPage url = Except.ok (a, d, c) →
      scrape_patent_details fetchPage url =
        (if py_strip (combined_text a d c) ≠ "" then combined_text a d c
         else "No detailed description available.")) := by
  have hcase : ∀ a d c, fetchPage url = Except.ok (a, d, c) →
      scrape_patent_details fetchPage url =
        (if py_strip (combined_text a d c) ≠ "" then combined_text a d c
         else "No detailed description available.") := by
    intro a d c hok
    unfold scrape_patent_details
    rw [hok]
    cases a <;> cases d <;> cases c <;> rfl
  refine ⟨?_, ?_, hcase⟩
  · cases hfp : fetchPage url with
    | error e =>
      unfold scrape_patent_details
      rw [hfp]
      apply ne_empty_of_length_pos
      rw [String.length_append]
      exact Nat.add_pos_left (by decide) _
    | ok triple =>
      obtain ⟨a, d, c⟩ := triple
      rw [hcase a d c hfp]
      by_cases hb : py_strip (combined_text a d c) ≠ ""
      · rw [if_pos hb]
        intro hemp
        rw [hemp] at hb
        exact hb (by decide)
      · rw [if_neg hb]
        decide
  · intro e he
    unfold scrape_patent_details
    rw [he]

theorem c5_scrape_never_empty_witness :
    scrape_patent_details (fun _ => Except.error "boom") "u" =
        "Error scraping patent details: " ++ "boom" ∧
    scrape_patent_details (fun _ => Except.ok (none, none, none)) "u" =
        "No detailed description available." := by
  constructor
  · exact (c5_scrape_never_empty (fun _ => Except.error "boom") "u").2.1 "boom" rfl
  · have h := (c5_scrape_never_empty
      (fun _ => Except.ok (none, none, none)) "u").2.2 none none none rfl
    rw [h]
    decide

/-- C6: when the external search provider call fails with any error, the
error is caught: `get_patent_results` returns the empty candidate list
together with a user-visible warning embedding the error message, and
nothing is raised to the caller. -/
theorem c6_search_error_degrades (googleSearch : String → String →
      Except String (Option (List SearchResult)))
    (query api_key e : String)
    (h : googleSearch (query ++ " site:patents.google.com") api_key = Except.error e) :
    get_patent_results googleSearch query api_key =
      ([], some ("Error in API search: " ++ e)) := by
  unfold get_patent_results
  rw [h]

theorem c6_search_error_degrades_witness :
    get_patent_results (fun _ _ => Except.error "boom") "q" "k" =
      ([], some ("Error in API search: " ++ "boom")) :=
  c6_search_error_degrades (fun _ _ => Except.error "boom") "q" "k" "boom" rfl

/-- C7: a submission with a missing/blank input (no API key, no invention
description, no features text, or a feature list that is empty once blank
lines are trimmed) is rejected, and the rejection happens before — and
independently of — any external call: the outcome is the same `rejected`
message for every search provider and every fetcher.  Conversely a
submission rejected for every external world has one of those blank
inputs. -/
theorem c7_validation_before_side_effects (fuzz : String → String → Nat)
    (api_key new_invention features_text : String)
    (similarity_threshold min_feature_matches max_patents : Nat) :
    (api_key = "" ∨ new_invention = "" ∨ features_text = "" ∨
        parse_features features_text = []) ↔
      ∃ msg, ∀ googleSearch fetchPage,
        handle_submit fuzz googleSearch fetchPage api_key new_invention features_text
          similarity_threshold min_feature_matches max_patents =
          SubmitOutcome.rejected msg := by
  constructor
  · intro h
    by_cases h1 : api_key = ""
    · refine ⟨"Please enter your SerpAPI key in the sidebar.", fun gs fp => ?_⟩
      simp [handle_submit, h1]
    · by_cases h2 : new_invention = ""
      · refine ⟨"Please describe your invention.", fun gs fp => ?_⟩
        simp [handle_submit, h1, h2]
      · by_cases h3 : features_text = ""
        · refine ⟨"Please enter at least one feature.", fun gs fp => ?_⟩
          simp [handle_submit, h1, h2, h3]
        · have h4 : parse_features features_text = [] := by tauto
          refine ⟨"Please enter valid features (one per line).", fun gs fp => ?_⟩
          simp [handle_submit, h1, h2, h3, h4]
  · rintro ⟨msg, hmsg⟩
    by_contra hcon
    push_neg at hcon
    obtain ⟨n1, n2, n3, n4⟩ := hcon
    have hout := hmsg (fun _ _ => Except.ok none) (fun _ => Except.error "")
    simp [handle_submit, n1, n2, n3, n4] at hout

theorem decodeStrList_map (l : List String) :
    decodeStrList (l.map JsonVal.str) = some l := by
  induction l with
  | nil => rfl
  | cons s rest ih => simp [decodeStrList, ih]

theorem decodeMatchData_matchDataJson (d : MatchData) :
    decodeMatchData (matchDataJson d) = some d := by
  show (decodeStrList (d.justification.map JsonVal.str)).map
      (fun sentences => ({ score := d.score, justification := sentences } : MatchData)) =
    some d
  rw [decodeStrList_map]
  rfl

theorem decodeMatches_map (m : List (String × MatchData)) :
    decodeMatches (m.map (fun p => (p.1, matchDataJson p.2))) = some m := by
  induction m with
  | nil => rfl
  | cons p rest ih =>
    obtain ⟨k, d⟩ := p
    simp [decodeMatches, decodeMatchData_matchDataJson, ih]

theorem decodeRecords_map (l : List PatentRecord) :
    decodeRecords (l.map (fun r =>
      JsonVal.obj [("patent_title", JsonVal.str r.1), ("patent_link", JsonVal.str r.2.1),
                   ("matches", matchesJson r.2.2)])) = some l := by
  induction l with
  | nil => rfl
  | cons r rest ih =>
    obtain ⟨t, lk, m⟩ := r
    rw [List.map_cons]
    have hrec : decodeRecord (JsonVal.obj [("patent_title", JsonVal.str t),
        ("patent_link", JsonVal.str lk), ("matches", matchesJson m)]) =
        some ((t, lk, m) : PatentRecord) := by
      show (decodeMatches (m.map (fun p => (p.1, matchDataJson p.2)))).map
          (fun mm => ((t, lk, mm) : PatentRecord)) = some (t, lk, m)
      rw [decodeMatches_map]
      rfl
    simp [decodeRecords, hrec, ih]

/-- C8: serializing a result set to the JSON export format (an array of
objects with keys `patent_title`, `patent_link` and `matches`, where
`matches` maps each feature to its score and justification list) and
parsing it back reproduces the same titles, links, scores and
justification lists. -/
theorem c8_result_json_roundtrip (best_patents : List PatentRecord) :
    parse_result_json (result_json best_patents) = some best_patents := by
  unfold result_json parse_result_json
  exact decodeRecords_map best_patents
